import Mathlib

/-!
# EKSClusterHandler: find / provision / bind

A shallow embedding of `pkg/controller/compute/kubernetes/aws_handler.go`
(`EKSClusterHandler.Find`, `.Provision`, `.SetBindStatus`) and the properties
of its handler contract.

The handler talks to the object store only through the `client.Client`
interface, so the three operations are embedded over an arbitrary client whose
state is threaded explicitly.  Go's `(value, error)` results are kept as pairs
of options, so that "no resource is returned together with an error" is a
statement about the code and not about the result type.
-/

namespace Crossplane

/-! ## Data model -/

/-- Identity of an object in the store (`types.NamespacedName`). -/
structure NamespacedName where
  Namespace : String
  Name : String
  deriving DecidableEq

/-- The text of an identity, as the `%s` verb prints it
(`NamespacedName.String()`): namespace, the separator, name. -/
def NamespacedName.String (n : NamespacedName) : String :=
  n.Namespace ++ "/" ++ n.Name

/-- A reference to another object (`corev1.ObjectReference`). -/
structure ObjectReference where
  Kind : String
  Namespace : String
  Name : String
  UID : String
  APIVersion : String
  deriving DecidableEq

/-- A reference to an object of the same namespace
(`corev1.LocalObjectReference`). -/
structure LocalObjectReference where
  Name : String
  deriving DecidableEq

/-- An owner back-reference (`metav1.OwnerReference`). -/
structure OwnerReference where
  APIVersion : String
  Kind : String
  Name : String
  UID : String
  deriving DecidableEq

/-- The fields of `corev1alpha1.ResourceClass` that `Provision` reads. Its
method `ObjectReference()` is not part of the handler file and is taken as a
parameter (`Env.classObjectReference`). -/
structure ResourceClass where
  Namespace : String
  Name : String
  Parameters : List (String × String)
  ProviderRef : LocalObjectReference
  ReclaimPolicy : String
  deriving DecidableEq

/-- The interface `corev1alpha1.ResourceClaim`, as the results of the three
methods `Provision` calls on it: `GetUID()`, `ObjectReference()` (a pointer,
hence an option) and `OwnerReference()`. -/
structure ResourceClaim where
  GetUID : String
  ObjectReference : Option ObjectReference
  OwnerReference : OwnerReference
  deriving DecidableEq

/-- Modelled from the spec: the type `v1alpha1.EKSClusterSpec`, whose
declaration is not in the handler file. The spec of a resource is
"kind-specific, built from the class's parameters plus providerRef,
reclaimPolicy, classRef, claimRef"; the kind-specific part is kept as an
uninterpreted payload. -/
structure EKSClusterSpec where
  KindSpecific : List (String × String)
  ClaimRef : Option ObjectReference
  ClassRef : Option ObjectReference
  ProviderRef : LocalObjectReference
  ReclaimPolicy : String
  deriving DecidableEq

/-- Modelled from the spec: the type `v1alpha1.EKSClusterStatus`, whose
declaration is not in the handler file: `status.bound` is a boolean, false in
the zero value. -/
structure EKSClusterStatus where
  Bound : Bool := false
  deriving DecidableEq

/-- Modelled from the spec: the method `SetBound` of the status, which is not
in the handler file: "set `status.bound := bound`". -/
def EKSClusterStatus.SetBound (_st : EKSClusterStatus) (bound : Bool) : EKSClusterStatus :=
  { Bound := bound }

/-- The fields of `metav1.ObjectMeta` that the handler sets. -/
structure ObjectMeta where
  Labels : List (String × String)
  Namespace : String
  Name : String
  OwnerReferences : List OwnerReference
  deriving DecidableEq

/-- The resource object `v1alpha1.EKSCluster`: metadata, spec, status. -/
structure EKSCluster where
  ObjectMeta : ObjectMeta
  Spec : EKSClusterSpec
  Status : EKSClusterStatus := {}
  deriving DecidableEq

/-- The (namespace, name) key under which the store keeps an object. -/
def EKSCluster.key (o : EKSCluster) : NamespacedName :=
  { Namespace := o.ObjectMeta.Namespace, Name := o.ObjectMeta.Name }

/-- What the handler file uses and does not define: the constructor
`v1alpha1.NewEKSClusterSpec`, the method `ResourceClass.ObjectReference`, and
the constants `labelProviderKey`, `labelProviderAWS` and
`v1alpha1.EKSClusterKind`. -/
structure Env where
  NewEKSClusterSpec : List (String × String) → EKSClusterSpec
  classObjectReference : ResourceClass → Option ObjectReference
  labelProviderKey : String
  labelProviderAWS : String
  EKSClusterKind : String

/-! ## Errors -/

/-- An error of the store client, by the reason the handler can tell apart. -/
inductive StoreError where
  | NotFound
  | AlreadyExists
  | Conflict
  | Other (msg : String)
  deriving DecidableEq

/-- The test `kerrors.IsNotFound`. -/
def IsNotFound : StoreError → Bool
  | .NotFound => true
  | _ => false

/-- A non-nil result of `errors.Wrapf`: the cause and the message put in front
of it. -/
structure WrappedError where
  cause : StoreError
  msg : String
  deriving DecidableEq

/-- The call `errors.Wrapf(err, format, args...)`, with the message already
formatted: nil for a nil error, else the error wrapped. -/
def Wrapf (err : Option StoreError) (msg : String) : Option WrappedError :=
  match err with
  | none => none
  | some e => some { cause := e, msg := msg }

/-! ## The store client -/

/-- The three calls of `client.Client` the handler makes, over a client state
`σ`. `Get` fills the object or fails; `Create` and `Update` return the object
as the server answered it, or fail. -/
structure Client (σ : Type) where
  Get : NamespacedName → σ → Except StoreError EKSCluster × σ
  Create : EKSCluster → σ → Except StoreError EKSCluster × σ
  Update : EKSCluster → σ → Except StoreError EKSCluster × σ

/-- The `error` a client call returns: nil on success. -/
def errOf {α : Type} : Except StoreError α → Option StoreError
  | .error e => some e
  | .ok _ => none

/-! ## The handler -/

/-- The method `EKSClusterHandler.Find`: one `Get`; on failure no resource and
the error wrapped as "failed to retrieve <kind>: <identity>". -/
def Find {σ : Type} (env : Env) (c : Client σ) (name : NamespacedName) (s : σ) :
    Option EKSCluster × Option WrappedError × σ :=
  match c.Get name s with
  | (.error err, s1) =>
    (none, Wrapf (some err) ("failed to retrieve " ++ env.EKSClusterKind ++ ": " ++ name.String), s1)
  | (.ok inst, s1) => (some inst, none, s1)

/-- The spec built by the first lines of `Provision`: the class's parameters
turned into a spec, then provider reference, reclaim policy, class reference
and claim reference assigned. -/
def provisionSpec (env : Env) (cls : ResourceClass) (claim : ResourceClaim) : EKSClusterSpec :=
  let resourceInstance := env.NewEKSClusterSpec cls.Parameters
  let resourceInstance := { resourceInstance with ProviderRef := cls.ProviderRef }
  let resourceInstance := { resourceInstance with ReclaimPolicy := cls.ReclaimPolicy }
  let resourceInstance := { resourceInstance with ClassRef := env.classObjectReference cls }
  let resourceInstance := { resourceInstance with ClaimRef := claim.ObjectReference }
  resourceInstance

/-- The composite literal `cluster` of `Provision`: labels, namespace of the
class, name "eks-" followed by the claim's UID, the claim as owner, the spec;
the status is left at its zero value. -/
def provisionCluster (env : Env) (cls : ResourceClass) (claim : ResourceClaim) : EKSCluster :=
  { ObjectMeta :=
      { Labels := [(env.labelProviderKey, env.labelProviderAWS)]
        Namespace := cls.Namespace
        Name := "eks-" ++ claim.GetUID
        OwnerReferences := [claim.OwnerReference] }
    Spec := provisionSpec env cls claim }

/-- The method `EKSClusterHandler.Provision`: build the cluster object, one
`Create`; on failure no resource and the error wrapped as
"failed to create cluster <namespace>/<name>". -/
def Provision {σ : Type} (env : Env) (c : Client σ) (cls : ResourceClass) (claim : ResourceClaim)
    (s : σ) : Option EKSCluster × Option WrappedError × σ :=
  let cluster := provisionCluster env cls claim
  match c.Create cluster s with
  | (.error err, s1) =>
    (none, Wrapf (some err)
      ("failed to create cluster " ++ cluster.ObjectMeta.Namespace ++ "/" ++ cluster.ObjectMeta.Name), s1)
  | (.ok created, s1) => (some created, none, s1)

/-- The method `EKSClusterHandler.SetBindStatus`: one `Get`; a not-found is
success when unbinding, any other failure is wrapped as
"failed to retrieve cluster <identity>"; else the bound flag is set and the
object updated, the result of `Update` wrapped as
"failed to update cluster <identity>". -/
def SetBindStatus {σ : Type} (c : Client σ) (name : NamespacedName) (bound : Bool) (s : σ) :
    Option WrappedError × σ :=
  match c.Get name s with
  | (.error err, s1) =>
    if IsNotFound err && !bound then (none, s1)
    else (Wrapf (some err) ("failed to retrieve cluster " ++ name.String), s1)
  | (.ok inst, s1) =>
    let inst := { inst with Status := inst.Status.SetBound bound }
    match c.Update inst s1 with
    | (r, s2) => (Wrapf (errOf r) ("failed to update cluster " ++ name.String), s2)

/-! ## An in-memory store

The store client is an external collaborator of the handler. The spec
describes it as "a synchronous, fallible key-value store keyed by
(namespace, name)", with `get(key) -> object | NotFound`,
`create(object) -> object | AlreadyExists | Error` and
`update(object) -> ok | Conflict | Error`. -/

/-- The objects a store holds. -/
abbrev Store := List EKSCluster

/-- The object a store holds at an identity, if any. -/
def objectAt (s : Store) (n : NamespacedName) : Option EKSCluster :=
  s.find? (fun o => decide (o.key = n))

/-- How many objects a store holds at an identity. -/
def countAt (s : Store) (n : NamespacedName) : Nat :=
  s.countP (fun o => decide (o.key = n))

/-- How many objects of a store carry a given name, in whatever namespace. -/
def countNamed (s : Store) (name : String) : Nat :=
  s.countP (fun o => decide (o.ObjectMeta.Name = name))

/-- The store with the first object held at the key of `o` replaced by `o`. -/
def replaceAt (o : EKSCluster) : Store → Store
  | [] => []
  | x :: xs => if x.key = o.key then o :: xs else x :: replaceAt o xs

/-- The failures a store may answer with whatever it holds (transport,
admission, conflict ...): for each call, the error it fails with, if any, given
the objects held and the argument of the call. -/
structure Faults where
  get : Store → NamespacedName → Option StoreError
  create : Store → EKSCluster → Option StoreError
  update : Store → EKSCluster → Option StoreError

/-- A store that fails only as a key-value store must. -/
def noFaults : Faults :=
  { get := fun _ _ => none, create := fun _ _ => none, update := fun _ _ => none }

/-- Modelled from the spec: the Resource Store Client, which is outside the
handler file: a key-value store keyed by (namespace, name). `Get` answers the
object held at the key, or not-found; `Create` fails with already-exists when
the key is taken and else adds the object; `Update` fails with not-found when
no object is at the key and else replaces it. Each call first fails with the
fault `f` injects, if any, and then leaves the store as it is. -/
def memClient (f : Faults) : Client Store where
  Get := fun n s =>
    match f.get s n with
    | some e => (.error e, s)
    | none =>
      match objectAt s n with
      | some o => (.ok o, s)
      | none => (.error .NotFound, s)
  Create := fun o s =>
    match f.create s o with
    | some e => (.error e, s)
    | none =>
      if (objectAt s o.key).isSome then (.error .AlreadyExists, s)
      else (.ok o, s ++ [o])
  Update := fun o s =>
    match f.update s o with
    | some e => (.error e, s)
    | none =>
      if (objectAt s o.key).isSome then
        (.ok o, replaceAt o s)
      else (.error .NotFound, s)

/-- A call of the handler, as the reconciliation loop makes it. -/
inductive Call where
  | provision (cls : ResourceClass) (claim : ResourceClaim)
  | find (name : NamespacedName)
  | setBindStatus (name : NamespacedName) (bound : Bool)

/-- The store after one call of the handler. -/
def step (env : Env) (f : Faults) (s : Store) : Call → Store
  | .provision cls claim => (Provision env (memClient f) cls claim s).2.2
  | .find name => (Find env (memClient f) name s).2.2
  | .setBindStatus name bound => (SetBindStatus (memClient f) name bound s).2

/-- The store reached from the empty store by a sequence of calls. -/
def run (env : Env) (f : Faults) (calls : List Call) : Store :=
  calls.foldl (step env f) []

/-! ## Concrete inputs -/

/-- An environment for the examples: the spec constructor keeps the parameters
as the kind-specific part and leaves the rest at zero values. -/
def env0 : Env :=
  { NewEKSClusterSpec := fun p =>
      { KindSpecific := p, ClaimRef := none, ClassRef := none,
        ProviderRef := { Name := "" }, ReclaimPolicy := "" }
    classObjectReference := fun cls =>
      some { Kind := "ResourceClass", Namespace := cls.Namespace, Name := cls.Name,
             UID := "", APIVersion := "core.crossplane.io/v1alpha1" }
    labelProviderKey := "provider"
    labelProviderAWS := "aws"
    EKSClusterKind := "ekscluster" }

/-- A class in namespace "ops". -/
def classOps : ResourceClass :=
  { Namespace := "ops", Name := "standard", Parameters := [("region", "us-west-2")],
    ProviderRef := { Name := "aws-provider" }, ReclaimPolicy := "Delete" }

/-- A class in namespace "dev". -/
def classDev : ResourceClass :=
  { Namespace := "dev", Name := "standard", Parameters := [],
    ProviderRef := { Name := "aws-provider" }, ReclaimPolicy := "Retain" }

/-- A claim with UID "abc123". -/
def claimAbc : ResourceClaim :=
  { GetUID := "abc123"
    ObjectReference := some { Kind := "KubernetesCluster", Namespace := "team", Name := "demo",
                              UID := "abc123", APIVersion := "compute.crossplane.io/v1alpha1" }
    OwnerReference := { APIVersion := "compute.crossplane.io/v1alpha1", Kind := "KubernetesCluster",
                        Name := "demo", UID := "abc123" } }

/-- The identity of the resource of `claimAbc` under `classOps`. -/
def idOpsAbc : NamespacedName := { Namespace := "ops", Name := "eks-abc123" }

/-- A store whose every get fails with an error that is not a not-found. -/
def brokenGet : Faults :=
  { noFaults with get := fun _ _ => some (.Other "connection refused") }

/-- A store whose every update fails with a conflict. -/
def brokenUpdate : Faults :=
  { noFaults with update := fun _ _ => some .Conflict }

/-- The store after `classOps` and `claimAbc` were provisioned into the empty
store. -/
def storeOpsAbc : Store := [provisionCluster env0 classOps claimAbc]

/-! ## The error taxonomy of the spec

The handler has one error type; the spec's `LookupError`, `CreationError` and
`UpdateError` are told apart by the operation the message names. -/

/-- A `LookupError`: the message starts with "failed to retrieve". -/
def IsLookupError (e : WrappedError) : Prop :=
  "failed to retrieve".toList <+: e.msg.toList

/-- A `CreationError`: the message starts with "failed to create". -/
def IsCreationError (e : WrappedError) : Prop :=
  "failed to create".toList <+: e.msg.toList

/-- An `UpdateError`: the message starts with "failed to update". -/
def IsUpdateError (e : WrappedError) : Prop :=
  "failed to update".toList <+: e.msg.toList

/-- `Provision` ends in one `Create` of `obj`: it returns the object the call
answered, if it succeeded, the cause it failed with, if it failed, and the
store as the call left it, whatever the client. -/
def HandsToCreate (env : Env) (cls : ResourceClass) (claim : ResourceClaim) (obj : EKSCluster) :
    Prop :=
  ∀ (σ : Type) (c : Client σ) (s : σ),
    (Provision env c cls claim s).1 = (c.Create obj s).1.toOption ∧
    ((Provision env c cls claim s).2.1).map (fun e => e.cause) = errOf (c.Create obj s).1 ∧
    (Provision env c cls claim s).2.2 = (c.Create obj s).2

/-! ## Lemmas on the handler over any client -/

theorem handsToCreate_provisionCluster (env : Env) (cls : ResourceClass) (claim : ResourceClaim) :
    HandsToCreate env cls claim (provisionCluster env cls claim) := by
  intro σ c s
  rcases h : c.Create (provisionCluster env cls claim) s with ⟨r, s1⟩
  cases r <;> simp [Provision, h, Wrapf, errOf, Except.toOption]

/-! ## Claims -/

/-- C1: for every class and claim, the object `Provision` hands to the store's
create is named "eks-" followed by the claim's UID, lies in the class's
namespace and is unbound; for claim UID "abc123" and class namespace "ops" it
is named "eks-abc123", lies in "ops" and is unbound. -/
theorem provision_object_identity (env : Env) (cls : ResourceClass) (claim : ResourceClaim) :
    (∃ obj : EKSCluster,
      HandsToCreate env cls claim obj ∧
      obj.ObjectMeta.Name = "eks-" ++ claim.GetUID ∧
      obj.ObjectMeta.Namespace = cls.Namespace ∧
      obj.Status.Bound = false) ∧
    (∃ obj : EKSCluster,
      HandsToCreate env { cls with Namespace := "ops" } { claim with GetUID := "abc123" } obj ∧
      obj.ObjectMeta.Name = "eks-abc123" ∧
      obj.ObjectMeta.Namespace = "ops" ∧
      obj.Status.Bound = false) :=
  ⟨⟨_, handsToCreate_provisionCluster env cls claim, rfl, rfl, rfl⟩,
   ⟨_, handsToCreate_provisionCluster env _ _, rfl, rfl, rfl⟩⟩

/-- C4: when the store's get reports not-found at an identity,
`SetBindStatus` to unbound returns no error and makes no further call: the
store is as the get left it. -/
theorem setBindStatus_unbind_absent {σ : Type} (c : Client σ) (id : NamespacedName) (s s1 : σ)
    (e : StoreError) (hget : c.Get id s = (.error e, s1)) (hnf : IsNotFound e = true) :
    SetBindStatus c id false s = (none, s1) := by
  simp [SetBindStatus, hget, hnf]

/-- Witness of C4: unbinding at an identity of the empty in-memory store. -/
theorem setBindStatus_unbind_absent_witness :
    (memClient noFaults).Get idOpsAbc [] = (.error .NotFound, []) ∧
    SetBindStatus (memClient noFaults) idOpsAbc false [] = (none, []) :=
  ⟨rfl, setBindStatus_unbind_absent (memClient noFaults) idOpsAbc [] [] .NotFound rfl rfl⟩

/-- C5: when the store's get reports not-found at an identity,
`SetBindStatus` to bound returns the "failed to retrieve" error wrapping that
cause, a `LookupError` and not an `UpdateError`, and makes no further call:
the store is as the get left it. -/
theorem setBindStatus_bind_absent {σ : Type} (c : Client σ) (id : NamespacedName) (s s1 : σ)
    (e : StoreError) (hget : c.Get id s = (.error e, s1)) (hnf : IsNotFound e = true) :
    ∃ w : WrappedError,
      SetBindStatus c id true s = (some w, s1) ∧
      w.cause = e ∧
      w.msg = "failed to retrieve cluster " ++ id.String ∧
      IsLookupError w ∧ ¬ IsUpdateError w := by
  refine ⟨⟨e, "failed to retrieve cluster " ++ id.String⟩, ?_, rfl, rfl, ?_, ?_⟩
  · simp [SetBindStatus, hget, hnf, Wrapf]
  · simp only [IsLookupError, String.toList, String.data_append]
    simp
  · simp only [IsUpdateError, String.toList, String.data_append]
    simp

/-- Witness of C5: binding at an identity of the empty in-memory store. -/
theorem setBindStatus_bind_absent_witness :
    (memClient noFaults).Get idOpsAbc [] = (.error .NotFound, []) ∧
    ∃ w : WrappedError,
      SetBindStatus (memClient noFaults) idOpsAbc true [] = (some w, []) ∧
      w.cause = .NotFound ∧
      w.msg = "failed to retrieve cluster " ++ idOpsAbc.String ∧
      IsLookupError w ∧ ¬ IsUpdateError w :=
  ⟨rfl, setBindStatus_bind_absent (memClient noFaults) idOpsAbc [] [] .NotFound rfl rfl⟩

/-! ## Lemmas on the in-memory store -/

theorem objectAt_key {s : Store} {n : NamespacedName} {o : EKSCluster}
    (h : objectAt s n = some o) : o.key = n := by
  have h1 := List.find?_some h
  simpa using h1

theorem objectAt_append_one (s : Store) (o : EKSCluster) (n : NamespacedName) :
    objectAt (s ++ [o]) n = (objectAt s n).or (if o.key = n then some o else none) := by
  unfold objectAt
  rw [List.find?_append]
  congr 1
  by_cases h : o.key = n <;> simp [h]

theorem countAt_append_one (s : Store) (o : EKSCluster) (n : NamespacedName) :
    countAt (s ++ [o]) n = countAt s n + (if o.key = n then 1 else 0) := by
  unfold countAt
  rw [List.countP_append]
  congr 1
  by_cases h : o.key = n <;> simp [h]

theorem countAt_eq_zero {s : Store} {n : NamespacedName} (h : objectAt s n = none) :
    countAt s n = 0 := by
  unfold countAt objectAt at *
  rw [List.countP_eq_zero]
  exact List.find?_eq_none.mp h

theorem objectAt_replaceAt_self (o : EKSCluster) (s : Store) (h : (objectAt s o.key).isSome) :
    objectAt (replaceAt o s) o.key = some o := by
  induction s with
  | nil => simp [objectAt] at h
  | cons x xs ih =>
    by_cases hx : x.key = o.key
    · simp [replaceAt, hx, objectAt]
    · have h2 : (objectAt xs o.key).isSome := by simpa [objectAt, hx] using h
      have := ih h2
      simpa [replaceAt, hx, objectAt] using this

theorem objectAt_replaceAt_other (o : EKSCluster) (s : Store) (n : NamespacedName)
    (hn : n ≠ o.key) : objectAt (replaceAt o s) n = objectAt s n := by
  induction s with
  | nil => rfl
  | cons x xs ih =>
    by_cases hx : x.key = o.key
    · have h1 : ¬ x.key = n := fun h => hn (h ▸ hx)
      have h2 : ¬ o.key = n := fun h => hn h.symm
      simp [replaceAt, hx, objectAt, h2]
    · by_cases hxn : x.key = n
      · subst hxn
        simp [replaceAt, hx, objectAt]
      · have := ih
        simpa [replaceAt, hx, objectAt, hxn] using this

theorem map_key_replaceAt (o : EKSCluster) (s : Store) :
    (replaceAt o s).map EKSCluster.key = s.map EKSCluster.key := by
  induction s with
  | nil => rfl
  | cons x xs ih =>
    by_cases hx : x.key = o.key
    · simp [replaceAt, hx]
    · simp [replaceAt, hx, ih]

theorem countAt_eq_count_keys (s : Store) (n : NamespacedName) :
    countAt s n = (s.map EKSCluster.key).count n := by
  induction s with
  | nil => rfl
  | cons x xs ih =>
    unfold countAt at *
    simp only [List.countP_cons, List.map_cons, List.count_cons, ih]
    by_cases hx : x.key = n <;> simp [hx]

theorem countAt_replaceAt (o : EKSCluster) (s : Store) (n : NamespacedName) :
    countAt (replaceAt o s) n = countAt s n := by
  rw [countAt_eq_count_keys, countAt_eq_count_keys, map_key_replaceAt]

theorem length_replaceAt (o : EKSCluster) (s : Store) : (replaceAt o s).length = s.length := by
  have := congrArg List.length (map_key_replaceAt o s)
  simpa using this

theorem map_replaceAt_of_eq {β : Type} (g : EKSCluster → β) (o x : EKSCluster) (s : Store)
    (hx : objectAt s o.key = some x) (hg : g o = g x) :
    (replaceAt o s).map g = s.map g := by
  induction s with
  | nil => rfl
  | cons y ys ih =>
    by_cases hy : y.key = o.key
    · have hyx : y = x := by simpa [objectAt, hy] using hx
      subst hyx
      simp [replaceAt, hy, hg]
    · have h2 : objectAt ys o.key = some x := by simpa [objectAt, hy] using hx
      simp [replaceAt, hy, ih h2]

/-! ## Lemmas on the handler over the in-memory store -/

theorem provision_mem_of_no_error (env : Env) (f : Faults) (cls : ResourceClass)
    (claim : ResourceClaim) (s : Store)
    (h : (Provision env (memClient f) cls claim s).2.1 = none) :
    objectAt s (provisionCluster env cls claim).key = none ∧
    Provision env (memClient f) cls claim s =
      (some (provisionCluster env cls claim), none, s ++ [provisionCluster env cls claim]) := by
  cases hf : f.create s (provisionCluster env cls claim) with
  | some e => simp [Provision, memClient, hf, Wrapf] at h
  | none =>
    cases ho : objectAt s (provisionCluster env cls claim).key with
    | some x => simp [Provision, memClient, hf, ho, Wrapf] at h
    | none => simp [Provision, memClient, hf, ho]

theorem provision_mem_of_taken (env : Env) (f : Faults) (cls : ResourceClass)
    (claim : ResourceClaim) (s : Store)
    (h : (objectAt s (provisionCluster env cls claim).key).isSome) :
    ∃ cause : StoreError,
      Provision env (memClient f) cls claim s =
        (none, some ⟨cause, "failed to create cluster " ++ cls.Namespace ++ "/" ++
          ("eks-" ++ claim.GetUID)⟩, s) ∧
      (cause = .AlreadyExists ∨ f.create s (provisionCluster env cls claim) = some cause) := by
  cases hf : f.create s (provisionCluster env cls claim) with
  | some e =>
    refine ⟨e, ?_, Or.inr rfl⟩
    simp only [Provision, memClient, hf, Wrapf]
    rfl
  | none =>
    refine ⟨.AlreadyExists, ?_, Or.inl rfl⟩
    simp only [Provision, memClient, hf, h, Wrapf, if_true]
    rfl

theorem find_mem (env : Env) (f : Faults) (id : NamespacedName) (st : Store) :
    Find env (memClient f) id st =
      match f.get st id with
      | some e =>
        (none, some ⟨e, "failed to retrieve " ++ env.EKSClusterKind ++ ": " ++ id.String⟩, st)
      | none =>
        match objectAt st id with
        | some o => (some o, none, st)
        | none =>
          (none, some ⟨.NotFound, "failed to retrieve " ++ env.EKSClusterKind ++ ": " ++ id.String⟩,
            st) := by
  cases hf : f.get st id with
  | some e => simp [Find, memClient, hf, Wrapf]
  | none =>
    cases ho : objectAt st id with
    | some o => simp [Find, memClient, hf, ho]
    | none => simp [Find, memClient, hf, ho, Wrapf]

theorem setBindStatus_mem_ok (f : Faults) (id : NamespacedName) (b : Bool) (s : Store)
    (o : EKSCluster) (hg : f.get s id = none) (ho : objectAt s id = some o)
    (hu : f.update s { o with Status := o.Status.SetBound b } = none) :
    SetBindStatus (memClient f) id b s =
      (none, replaceAt { o with Status := o.Status.SetBound b } s) := by
  have hk : ({ o with Status := o.Status.SetBound b } : EKSCluster).key = id :=
    (objectAt_key ho : o.key = id)
  simp [SetBindStatus, memClient, hg, ho, hu, hk, Wrapf, errOf]

theorem objectAt_replaceAt_at (o : EKSCluster) (s : Store) (id : NamespacedName)
    (hk : o.key = id) (h : (objectAt s id).isSome) : objectAt (replaceAt o s) id = some o := by
  subst hk
  exact objectAt_replaceAt_self o s h

theorem setBindStatus_mem_sets (f : Faults) (id : NamespacedName) (b : Bool) (s : Store)
    (o : EKSCluster) (hg : f.get s id = none) (ho : objectAt s id = some o)
    (hu : f.update s { o with Status := o.Status.SetBound b } = none) :
    ∃ (s1 : Store) (o1 : EKSCluster),
      SetBindStatus (memClient f) id b s = (none, s1) ∧
      objectAt s1 id = some o1 ∧ o1.Status.Bound = b ∧
      o1.ObjectMeta = o.ObjectMeta ∧ o1.Spec = o.Spec :=
  ⟨_, _, setBindStatus_mem_ok f id b s o hg ho hu,
    objectAt_replaceAt_at _ s id (objectAt_key ho : o.key = id) (by rw [ho]; rfl),
    rfl, rfl, rfl⟩

theorem setBindStatus_mem_cases (f : Faults) (id : NamespacedName) (b : Bool) (s : Store) :
    (SetBindStatus (memClient f) id b s).2 = s ∨
    ∃ o : EKSCluster, objectAt s id = some o ∧
      SetBindStatus (memClient f) id b s =
        (none, replaceAt { o with Status := o.Status.SetBound b } s) := by
  cases hg : f.get s id with
  | some e =>
    left
    by_cases h : (IsNotFound e && !b) = true <;> simp [SetBindStatus, memClient, hg, h]
  | none =>
    cases ho : objectAt s id with
    | none =>
      left
      cases b <;> simp [SetBindStatus, memClient, hg, ho, IsNotFound]
    | some o =>
      cases hu : f.update s { o with Status := o.Status.SetBound b } with
      | some e =>
        left
        simp [SetBindStatus, memClient, hg, ho, hu]
      | none =>
        right
        exact ⟨o, rfl, setBindStatus_mem_ok f id b s o hg ho hu⟩

theorem provision_mem_store (env : Env) (f : Faults) (cls : ResourceClass)
    (claim : ResourceClaim) (s : Store) :
    (Provision env (memClient f) cls claim s).2.2 = s ∨
    (objectAt s (provisionCluster env cls claim).key = none ∧
      (Provision env (memClient f) cls claim s).2.2 = s ++ [provisionCluster env cls claim]) := by
  cases hf : f.create s (provisionCluster env cls claim) with
  | some e => left; simp [Provision, memClient, hf]
  | none =>
    cases ho : objectAt s (provisionCluster env cls claim).key with
    | some x => left; simp [Provision, memClient, hf, ho]
    | none => right; simp [Provision, memClient, hf, ho]

theorem find_mem_store (env : Env) (f : Faults) (id : NamespacedName) (st : Store) :
    (Find env (memClient f) id st).2.2 = st := by
  rw [find_mem]
  cases f.get st id with
  | some e => rfl
  | none => cases objectAt st id <;> rfl

theorem step_countAt_le_one (env : Env) (f : Faults) (s : Store) (call : Call)
    (h : ∀ n, countAt s n ≤ 1) : ∀ n, countAt (step env f s call) n ≤ 1 := by
  intro n
  cases call with
  | provision cls claim =>
    rcases provision_mem_store env f cls claim s with h1 | ⟨hfree, h1⟩
    · simp only [step, h1]; exact h n
    · simp only [step, h1, countAt_append_one]
      by_cases hk : (provisionCluster env cls claim).key = n
      · subst hk
        simp [countAt_eq_zero hfree]
      · simpa [hk] using h n
  | find name => simp only [step, find_mem_store]; exact h n
  | setBindStatus name bound =>
    rcases setBindStatus_mem_cases f name bound s with h1 | ⟨o, _, h1⟩
    · simp only [step, h1]; exact h n
    · simp only [step, h1, countAt_replaceAt]; exact h n

theorem foldl_step_countAt_le_one (env : Env) (f : Faults) (calls : List Call) :
    ∀ s : Store, (∀ n, countAt s n ≤ 1) → ∀ n, countAt (calls.foldl (step env f) s) n ≤ 1 := by
  induction calls with
  | nil => intro s h; exact h
  | cons call rest ih =>
    intro s h
    exact ih (step env f s call) (step_countAt_le_one env f s call h)

theorem eks_name_injective (a b : String) (h : "eks-" ++ a = "eks-" ++ b) : a = b := by
  have h1 := congrArg String.data h
  simp only [String.data_append] at h1
  exact String.ext (List.append_cancel_left h1)

/-! ## Claims on the handler over the in-memory store -/

/-- C2: over a store in which `Provision` of a class and a claim succeeds (no
object was then at the namespace of the class and "eks-" followed by the
claim's UID) and whose get does not fail, `Find` at that identity succeeds
and returns the resource provisioned, whose claim reference is the reference
of the claim and whose class reference is the reference of the class. -/
theorem provision_then_find (env : Env) (f : Faults) (cls : ResourceClass)
    (claim : ResourceClaim) (s : Store)
    (hprov : (Provision env (memClient f) cls claim s).2.1 = none)
    (hget : f.get (Provision env (memClient f) cls claim s).2.2
      { Namespace := cls.Namespace, Name := "eks-" ++ claim.GetUID } = none) :
    objectAt s { Namespace := cls.Namespace, Name := "eks-" ++ claim.GetUID } = none ∧
    ∃ r : EKSCluster,
      (Provision env (memClient f) cls claim s).1 = some r ∧
      Find env (memClient f) { Namespace := cls.Namespace, Name := "eks-" ++ claim.GetUID }
          (Provision env (memClient f) cls claim s).2.2 =
        (some r, none, (Provision env (memClient f) cls claim s).2.2) ∧
      r.Spec.ClaimRef = claim.ObjectReference ∧
      r.Spec.ClassRef = env.classObjectReference cls := by
  obtain ⟨hfree, hp⟩ := provision_mem_of_no_error env f cls claim s hprov
  rw [hp] at hget ⊢
  refine ⟨hfree, provisionCluster env cls claim, rfl, ?_, rfl, rfl⟩
  have hfree1 : objectAt s { Namespace := cls.Namespace, Name := "eks-" ++ claim.GetUID } = none :=
    hfree
  have hk : (provisionCluster env cls claim).key =
      { Namespace := cls.Namespace, Name := "eks-" ++ claim.GetUID } := rfl
  simp only at hget
  rw [find_mem, hget]
  simp [objectAt_append_one, hfree1, hk]

/-- Witness of C2: `classOps` and `claimAbc` provisioned into the empty store. -/
theorem provision_then_find_witness :
    (Provision env0 (memClient noFaults) classOps claimAbc []).2.1 = none ∧
    objectAt [] { Namespace := classOps.Namespace, Name := "eks-" ++ claimAbc.GetUID } = none ∧
    ∃ r : EKSCluster,
      (Provision env0 (memClient noFaults) classOps claimAbc []).1 = some r ∧
      Find env0 (memClient noFaults)
          { Namespace := classOps.Namespace, Name := "eks-" ++ claimAbc.GetUID }
          (Provision env0 (memClient noFaults) classOps claimAbc []).2.2 =
        (some r, none, (Provision env0 (memClient noFaults) classOps claimAbc []).2.2) ∧
      r.Spec.ClaimRef = claimAbc.ObjectReference ∧
      r.Spec.ClassRef = env0.classObjectReference classOps :=
  ⟨by decide, provision_then_find env0 noFaults classOps claimAbc [] (by decide) rfl⟩

/-- C3: when a first `Provision` of a class and a claim succeeded, a second one
for the same class and claim returns no resource and a creation error (caused
by already-exists, unless the store's create fails for another reason first),
and leaves the store as the first call left it: exactly one object is held at
the resource's identity, the one the first call returned, and the two calls
added one object in all. -/
theorem provision_twice (env : Env) (f : Faults) (cls : ResourceClass) (claim : ResourceClaim)
    (s : Store) (h1 : (Provision env (memClient f) cls claim s).2.1 = none) :
    ∃ (r : EKSCluster) (s1 : Store) (w : WrappedError),
      Provision env (memClient f) cls claim s = (some r, none, s1) ∧
      Provision env (memClient f) cls claim s1 = (none, some w, s1) ∧
      IsCreationError w ∧
      (w.cause = .AlreadyExists ∨ f.create s1 r = some w.cause) ∧
      countAt s1 { Namespace := cls.Namespace, Name := "eks-" ++ claim.GetUID } = 1 ∧
      objectAt s1 { Namespace := cls.Namespace, Name := "eks-" ++ claim.GetUID } = some r ∧
      s1.length = s.length + 1 := by
  obtain ⟨hfree, hp⟩ := provision_mem_of_no_error env f cls claim s h1
  have hk : (provisionCluster env cls claim).key =
      { Namespace := cls.Namespace, Name := "eks-" ++ claim.GetUID } := rfl
  have hobj : objectAt (s ++ [provisionCluster env cls claim]) (provisionCluster env cls claim).key =
      some (provisionCluster env cls claim) := by
    simp [objectAt_append_one, hfree]
  obtain ⟨cause, h2, hc⟩ := provision_mem_of_taken env f cls claim
    (s ++ [provisionCluster env cls claim]) (by simp [hobj])
  refine ⟨provisionCluster env cls claim, s ++ [provisionCluster env cls claim], _, hp, h2, ?_, hc,
    ?_, ?_, ?_⟩
  · simp only [IsCreationError, String.toList, String.data_append]
    simp
  · rw [← hk, countAt_append_one, countAt_eq_zero hfree]
    simp
  · rw [← hk]
    exact hobj
  · simp

/-- Witness of C3: `classOps` and `claimAbc` provisioned twice from the empty
store. -/
theorem provision_twice_witness :
    (Provision env0 (memClient noFaults) classOps claimAbc []).2.1 = none ∧
    ∃ (r : EKSCluster) (s1 : Store) (w : WrappedError),
      Provision env0 (memClient noFaults) classOps claimAbc [] = (some r, none, s1) ∧
      Provision env0 (memClient noFaults) classOps claimAbc s1 = (none, some w, s1) ∧
      IsCreationError w ∧
      (w.cause = .AlreadyExists ∨ noFaults.create s1 r = some w.cause) ∧
      countAt s1 { Namespace := classOps.Namespace, Name := "eks-" ++ claimAbc.GetUID } = 1 ∧
      objectAt s1 { Namespace := classOps.Namespace, Name := "eks-" ++ claimAbc.GetUID } = some r ∧
      s1.length = ([] : Store).length + 1 :=
  ⟨by decide, provision_twice env0 noFaults classOps claimAbc [] (by decide)⟩

/-- C6: over a store that holds an object at an identity and whose get and
update do not fail, `SetBindStatus` to bound returns no error and leaves the
object bound, and `SetBindStatus` to unbound after it returns no error and
leaves the object unbound; metadata and spec stay as they were. -/
theorem bind_then_unbind (f : Faults) (id : NamespacedName) (s : Store) (o : EKSCluster)
    (ho : objectAt s id = some o) (hg : ∀ t, f.get t id = none)
    (hu : ∀ t x, f.update t x = none) :
    ∃ (s1 s2 : Store) (o1 o2 : EKSCluster),
      SetBindStatus (memClient f) id true s = (none, s1) ∧
      objectAt s1 id = some o1 ∧ o1.Status.Bound = true ∧
      SetBindStatus (memClient f) id false s1 = (none, s2) ∧
      objectAt s2 id = some o2 ∧ o2.Status.Bound = false ∧
      o1.ObjectMeta = o.ObjectMeta ∧ o1.Spec = o.Spec ∧
      o2.ObjectMeta = o.ObjectMeta ∧ o2.Spec = o.Spec := by
  obtain ⟨s1, o1, e1, ho1, hb1, hm1, hs1⟩ :=
    setBindStatus_mem_sets f id true s o (hg s) ho (hu _ _)
  obtain ⟨s2, o2, e2, ho2, hb2, hm2, hs2⟩ :=
    setBindStatus_mem_sets f id false s1 o1 (hg s1) ho1 (hu _ _)
  exact ⟨s1, s2, o1, o2, e1, ho1, hb1, e2, ho2, hb2, hm1, hs1, hm2.trans hm1, hs2.trans hs1⟩

/-- Witness of C6: binding and unbinding the resource of `claimAbc`. -/
theorem bind_then_unbind_witness :
    objectAt storeOpsAbc idOpsAbc = some (provisionCluster env0 classOps claimAbc) ∧
    ∃ (s1 s2 : Store) (o1 o2 : EKSCluster),
      SetBindStatus (memClient noFaults) idOpsAbc true storeOpsAbc = (none, s1) ∧
      objectAt s1 idOpsAbc = some o1 ∧ o1.Status.Bound = true ∧
      SetBindStatus (memClient noFaults) idOpsAbc false s1 = (none, s2) ∧
      objectAt s2 idOpsAbc = some o2 ∧ o2.Status.Bound = false ∧
      o1.ObjectMeta = (provisionCluster env0 classOps claimAbc).ObjectMeta ∧
      o1.Spec = (provisionCluster env0 classOps claimAbc).Spec ∧
      o2.ObjectMeta = (provisionCluster env0 classOps claimAbc).ObjectMeta ∧
      o2.Spec = (provisionCluster env0 classOps claimAbc).Spec :=
  ⟨by decide, bind_then_unbind noFaults idOpsAbc storeOpsAbc _ (by decide) (fun _ => rfl)
    (fun _ _ => rfl)⟩

/-- C7: `Find` returns the object the store's get answered and no error, or no
resource and the cause of the failed get wrapped as
"failed to retrieve <kind>: <identity>"; so a resource is returned exactly
when no error is, and exactly when the get succeeded; the store is as the get
left it. Over the key-value store, `Find` leaves the store unchanged, and at
an identity with no object it returns no resource and the wrapped not-found. -/
theorem find_result {σ : Type} (env : Env) (c : Client σ) (f : Faults) (id : NamespacedName)
    (s : σ) (st : Store) :
    (Find env c id s).1 = (c.Get id s).1.toOption ∧
    (Find env c id s).2.1 = (errOf (c.Get id s).1).map
      (fun e => ⟨e, "failed to retrieve " ++ env.EKSClusterKind ++ ": " ++ id.String⟩) ∧
    (Find env c id s).2.2 = (c.Get id s).2 ∧
    ((Find env c id s).1.isSome ↔ (Find env c id s).2.1 = none) ∧
    ((Find env c id s).1.isSome ↔ errOf (c.Get id s).1 = none) ∧
    (Find env (memClient f) id st).2.2 = st ∧
    Find env (memClient noFaults) id st =
      match objectAt st id with
      | some o => (some o, none, st)
      | none =>
        (none, some ⟨.NotFound, "failed to retrieve " ++ env.EKSClusterKind ++ ": " ++ id.String⟩,
          st) := by
  refine ⟨?_, ?_, ?_, ?_, ?_, find_mem_store env f id st, ?_⟩
  · rcases h : c.Get id s with ⟨r, s1⟩
    cases r <;> simp [Find, h, Except.toOption]
  · rcases h : c.Get id s with ⟨r, s1⟩
    cases r <;> simp [Find, h, errOf, Wrapf]
  · rcases h : c.Get id s with ⟨r, s1⟩
    cases r <;> simp [Find, h]
  · rcases h : c.Get id s with ⟨r, s1⟩
    cases r <;> simp [Find, h, Wrapf]
  · rcases h : c.Get id s with ⟨r, s1⟩
    cases r <;> simp [Find, h, errOf]
  · rw [find_mem]
    rfl

/-- C8: over any client, the only write of `SetBindStatus` is one update, of
the object the get answered with the bound flag set and nothing else changed.
Over the key-value store, after `SetBindStatus` at an identity the object
there has the metadata and the spec it had (or there is still none), every
object at another identity is unchanged, and no object was added or removed. -/
theorem setBindStatus_frame {σ : Type} (c : Client σ) (f : Faults) (id : NamespacedName)
    (b : Bool) (s : σ) (st : Store) :
    ((SetBindStatus c id b s).2 = (c.Get id s).2 ∨
      ∃ (o o1 : EKSCluster) (s1 : σ), c.Get id s = (.ok o, s1) ∧
        o1.ObjectMeta = o.ObjectMeta ∧ o1.Spec = o.Spec ∧ o1.Status.Bound = b ∧
        (SetBindStatus c id b s).2 = (c.Update o1 s1).2) ∧
    (objectAt (SetBindStatus (memClient f) id b st).2 id).map (fun o => (o.ObjectMeta, o.Spec)) =
      (objectAt st id).map (fun o => (o.ObjectMeta, o.Spec)) ∧
    (∀ id1 : NamespacedName, id1 ≠ id →
      objectAt (SetBindStatus (memClient f) id b st).2 id1 = objectAt st id1) ∧
    (SetBindStatus (memClient f) id b st).2.map (fun o => (o.ObjectMeta, o.Spec)) =
      st.map (fun o => (o.ObjectMeta, o.Spec)) := by
  refine ⟨?_, ?_⟩
  · rcases h : c.Get id s with ⟨r, s1⟩
    cases r with
    | error e =>
      left
      by_cases hb : (IsNotFound e && !b) = true <;> simp [SetBindStatus, h, hb]
    | ok o =>
      right
      exact ⟨o, { o with Status := o.Status.SetBound b }, s1, rfl, rfl, rfl, rfl,
        by simp [SetBindStatus, h]⟩
  · rcases setBindStatus_mem_cases f id b st with h | ⟨o, ho, h⟩
    · rw [h]
      exact ⟨rfl, fun _ _ => rfl, rfl⟩
    · rw [h]
      have hk : ({ o with Status := o.Status.SetBound b } : EKSCluster).key = id :=
        (objectAt_key ho : o.key = id)
      refine ⟨?_, ?_, ?_⟩
      · simp only
        rw [objectAt_replaceAt_at _ st id hk (by rw [ho]; rfl), ho]
        rfl
      · intro id1 hne
        exact objectAt_replaceAt_other _ st id1 (by rw [hk]; exact hne)
      · exact map_replaceAt_of_eq _ _ o st (by rw [hk]; exact ho) rfl

/-- C9, as the claim states it, fails: over a store whose get fails with an
error that is not a not-found, `SetBindStatus` returns that cause wrapped as
"failed to retrieve cluster ops/eks-abc123", which is a `LookupError` and not
an `UpdateError`. -/
theorem setBindStatus_get_failure_not_update_error :
    ∃ w : WrappedError,
      SetBindStatus (memClient brokenGet) idOpsAbc true storeOpsAbc = (some w, storeOpsAbc) ∧
      errOf ((memClient brokenGet).Get idOpsAbc storeOpsAbc).1 = some w.cause ∧
      IsNotFound w.cause = false ∧
      w.msg = "failed to retrieve cluster ops/eks-abc123" ∧
      IsLookupError w ∧ ¬ IsUpdateError w := by
  refine ⟨⟨.Other "connection refused", "failed to retrieve cluster ops/eks-abc123"⟩,
    by decide, rfl, rfl, rfl, ?_, ?_⟩
  · unfold IsLookupError; decide
  · unfold IsUpdateError; decide

/-- C9, amended: in `SetBindStatus` a failure of the store's get that is not a
not-found is returned wrapped as "failed to retrieve cluster <identity>" (a
`LookupError`, not an `UpdateError`), and every failure of the store's update
is returned wrapped as "failed to update cluster <identity>" (an
`UpdateError`); the store is as the failed call left it. -/
theorem setBindStatus_store_errors {σ : Type} (c : Client σ) (id : NamespacedName) (b : Bool)
    (s : σ) :
    (∀ (e : StoreError) (s1 : σ), c.Get id s = (.error e, s1) → IsNotFound e = false →
      ∃ w : WrappedError, SetBindStatus c id b s = (some w, s1) ∧ w.cause = e ∧
        w.msg = "failed to retrieve cluster " ++ id.String ∧
        IsLookupError w ∧ ¬ IsUpdateError w) ∧
    (∀ (o : EKSCluster) (s1 : σ) (e : StoreError) (s2 : σ), c.Get id s = (.ok o, s1) →
      c.Update { o with Status := o.Status.SetBound b } s1 = (.error e, s2) →
      ∃ w : WrappedError, SetBindStatus c id b s = (some w, s2) ∧ w.cause = e ∧
        w.msg = "failed to update cluster " ++ id.String ∧
        IsUpdateError w ∧ ¬ IsLookupError w) := by
  refine ⟨?_, ?_⟩
  · intro e s1 hget hnf
    refine ⟨⟨e, "failed to retrieve cluster " ++ id.String⟩, ?_, rfl, rfl, ?_, ?_⟩
    · simp [SetBindStatus, hget, hnf, Wrapf]
    · simp only [IsLookupError, String.toList, String.data_append]
      simp
    · simp only [IsUpdateError, String.toList, String.data_append]
      simp
  · intro o s1 e s2 hget hupd
    refine ⟨⟨e, "failed to update cluster " ++ id.String⟩, ?_, rfl, rfl, ?_, ?_⟩
    · simp [SetBindStatus, hget, hupd, Wrapf, errOf]
    · simp only [IsUpdateError, String.toList, String.data_append]
      simp
    · simp only [IsLookupError, String.toList, String.data_append]
      simp

/-- Witness of C9, amended: a get that fails with "connection refused", and an
update that fails with a conflict, on the resource of `claimAbc`. -/
theorem setBindStatus_store_errors_witness :
    (∃ w : WrappedError,
      SetBindStatus (memClient brokenGet) idOpsAbc true storeOpsAbc = (some w, storeOpsAbc) ∧
      w.cause = .Other "connection refused" ∧
      w.msg = "failed to retrieve cluster " ++ idOpsAbc.String ∧
      IsLookupError w ∧ ¬ IsUpdateError w) ∧
    (∃ w : WrappedError,
      SetBindStatus (memClient brokenUpdate) idOpsAbc true storeOpsAbc = (some w, storeOpsAbc) ∧
      w.cause = .Conflict ∧
      w.msg = "failed to update cluster " ++ idOpsAbc.String ∧
      IsUpdateError w ∧ ¬ IsLookupError w) :=
  ⟨(setBindStatus_store_errors (memClient brokenGet) idOpsAbc true storeOpsAbc).1
      (.Other "connection refused") storeOpsAbc rfl rfl,
   (setBindStatus_store_errors (memClient brokenUpdate) idOpsAbc true storeOpsAbc).2
      (provisionCluster env0 classOps claimAbc) storeOpsAbc .Conflict storeOpsAbc rfl rfl⟩

/-- C10, as the claim states it, fails: after `claimAbc` is provisioned under
`classOps` and under `classDev`, whose namespaces differ, the store reached
from the empty store holds two resources named "eks-" followed by the claim's
UID. -/
theorem two_resources_named_for_one_claim :
    countNamed (run env0 noFaults [.provision classOps claimAbc, .provision classDev claimAbc])
      ("eks-" ++ claimAbc.GetUID) = 2 ∧
    ¬ countNamed (run env0 noFaults [.provision classOps claimAbc, .provision classDev claimAbc])
      ("eks-" ++ claimAbc.GetUID) ≤ 1 := by
  decide

/-- C10, amended: in every store reached from the empty store by calls of
`Provision`, `Find` and `SetBindStatus`, whatever the store's failures, at most
one resource is held at any identity, so for any claim and namespace at most
one resource of that namespace is named "eks-" followed by the claim's UID;
and the resources built for two claims have the same name exactly when the
claims have the same UID. -/
theorem reachable_one_resource_per_identity (env : Env) (f : Faults) (calls : List Call) :
    (∀ id : NamespacedName, countAt (run env f calls) id ≤ 1) ∧
    (∀ (claim : ResourceClaim) (ns : String),
      countAt (run env f calls) { Namespace := ns, Name := "eks-" ++ claim.GetUID } ≤ 1) ∧
    (∀ (cls1 cls2 : ResourceClass) (claim1 claim2 : ResourceClaim),
      (provisionCluster env cls1 claim1).ObjectMeta.Name =
          (provisionCluster env cls2 claim2).ObjectMeta.Name ↔
        claim1.GetUID = claim2.GetUID) := by
  have h := foldl_step_countAt_le_one env f calls [] (fun _ => Nat.zero_le _)
  refine ⟨h, fun claim ns => h _, ?_⟩
  intro cls1 cls2 claim1 claim2
  constructor
  · intro hn
    exact eks_name_injective _ _ hn
  · intro hu
    show "eks-" ++ claim1.GetUID = "eks-" ++ claim2.GetUID
    rw [hu]

end Crossplane
